import Mathlib

/-!
Verification of the grant-authorization and credential-reconciliation core

This development gives a shallow embedding, in Lean 4, of the core logic of a
Cassandra infrastructure provider:

* grant validation (`parseData`) against the static
  privilege-to-resource-type compatibility table, the keyspace-qualifier
  requirement set and the resource-type-to-identifier mapping;
* statement templating (`renderGrant`, `renderRevoke`) mirroring the two
  Go templates (rendered through Go html-template, so interpolated values
  pass through the HTML escaper);
* the credential verifier (`checkPassword`) with a full executable SHA-512
  implementation (the external bcrypt comparison primitive is a parameter);
* the role read path (`readRole`, `resourceRoleRead`) against an explicit
  catalog of role rows;
* the schema-level string validators (`stringLenBetweenOk`,
  `stringInSliceOk`, and the Go-regexp matchers used for identifiers).

Theorems at the end of the file settle the specification claims about these
functions.
-/

namespace CassandraProvider

/-- Embeds Go strings.Join: concatenate with a separator between elements. -/
def strJoin (sep : String) : List String → String
  | [] => ""
  | [x] => x
  | x :: y :: rest => x ++ sep ++ strJoin sep (y :: rest)

/-- One character of Go html-template escaping (the htmlEscaper applied to
every interpolated value in plain-text context): the five special characters
become HTML entities, NUL becomes the replacement character. -/
def htmlEscapeChar (c : Char) : String :=
  if c = '<' then "&lt;"
  else if c = '>' then "&gt;"
  else if c = '&' then "&amp;"
  else if c.toNat = 39 then "&#39;"
  else if c.toNat = 34 then "&#34;"
  else if c.toNat = 0 then "�"
  else String.singleton c

/-- Go html-template escaping of an interpolated string value. -/
def htmlEscape (s : String) : String :=
  String.join (s.data.map htmlEscapeChar)

/-! Grant data model and static tables -/

/-- The Grant struct of the source: privilege, resource type, grantee,
keyspace qualifier and identifier, all strings. -/
structure Grant where
  Privilege    : String
  ResourceType : String
  Grantee      : String
  Keyspace     : String
  Identifier   : String
deriving DecidableEq, Repr

/-- The privilege-to-resource-types compatibility map
(`privilegeToResourceTypesMap` in the source). A Go map lookup of an absent
key yields the zero value, here the empty list. -/
def privilegeToResourceTypesMap (p : String) : List String :=
  if p = "all" then
    ["all functions", "all functions in keyspace", "function", "all keyspaces",
     "keyspace", "table", "all roles", "role"]
  else if p = "create" then
    ["all keyspaces", "keyspace", "all functions", "all functions in keyspace",
     "all roles"]
  else if p = "alter" then
    ["all keyspaces", "keyspace", "table", "all functions",
     "all functions in keyspace", "function", "all roles", "role"]
  else if p = "drop" then
    ["keyspace", "table", "all functions", "all functions in keyspace",
     "function", "all roles", "role"]
  else if p = "select" then
    ["all keyspaces", "keyspace", "table", "all mbeans", "mbeans", "mbean"]
  else if p = "modify" then
    ["all keyspaces", "keyspace", "table", "all mbeans", "mbeans", "mbean"]
  else if p = "authorize" then
    ["all keyspaces", "keyspace", "table", "function", "all functions",
     "all functions in keyspace", "all roles", "roles"]
  else if p = "describe" then
    ["all roles", "all mbeans"]
  else if p = "execute" then
    ["all functions", "all functions in keyspace", "function"]
  else []

/-- `resourcesThatRequireKeyspaceQualifier` from the source. -/
def resourcesThatRequireKeyspaceQualifier : List String :=
  ["all functions in keyspace", "function", "keyspace", "table"]

/-- `resourceTypeToIdentifier` from the source: which schema attribute holds
the identifier for a resource type; absent keys give the zero value "". -/
def resourceTypeToIdentifier (rt : String) : String :=
  if rt = "function" then "function_name"
  else if rt = "mbean" then "mbean_name"
  else if rt = "mbeans" then "mbean_pattern"
  else if rt = "table" then "table_name"
  else if rt = "role" then "role_name"
  else ""

/-- The attributes of the grant resource data that `parseData` reads through
`d.Get` (the schema.ResourceData of the source, restricted to the keys the
grant resource declares). -/
structure GrantResourceData where
  privilege     : String
  grantee       : String
  resource_type : String
  keyspace_name : String
  function_name : String
  table_name    : String
  role_name     : String
  mbean_name    : String
  mbean_pattern : String
deriving DecidableEq, Repr

/-- `d.Get key` for the identifier attributes, as used with the key obtained
from `resourceTypeToIdentifier`; unknown keys give the zero value "". -/
def getIdentifierField (d : GrantResourceData) (key : String) : String :=
  if key = "function_name" then d.function_name
  else if key = "table_name" then d.table_name
  else if key = "role_name" then d.role_name
  else if key = "mbean_name" then d.mbean_name
  else if key = "mbean_pattern" then d.mbean_pattern
  else ""

/-- `parseData` from the source: validates the five grant fields against the
static tables and either returns the Grant or the first applicable error,
with the same error message text as the Go code builds with fmt.Errorf.
The two Go early-return blocks (keyspace qualifier, identifier) are
flattened into guard conditions: keyspaceName is the keyspace attribute
exactly when the resource type requires a qualifier (else it stays at its
zero value), and the identifier is read exactly when the resource type maps
to an identifier attribute (else it stays at its zero value). -/
def parseData (d : GrantResourceData) : Except String Grant :=
  let privilege := d.privilege
  let grantee := d.grantee
  let resourceType := d.resource_type
  let allowed := privilegeToResourceTypesMap privilege
  if allowed.length ≤ 0 then
    .error (resourceType ++ " resource not applicable for privilege " ++ privilege)
  else if ¬ allowed.contains resourceType then
    .error (resourceType ++ " resource not applicable for privilege " ++ privilege
      ++ " - valid resourceTypes are " ++ strJoin ", " allowed)
  else
    let requiresKeyspaceQualifier :=
      resourcesThatRequireKeyspaceQualifier.contains resourceType
    let keyspaceName := if requiresKeyspaceQualifier then d.keyspace_name else ""
    if requiresKeyspaceQualifier ∧ d.keyspace_name = "" then
      .error ("keyspace name must be set for resourceType " ++ resourceType)
    else
      let identifierKey := resourceTypeToIdentifier resourceType
      let identifier :=
        if identifierKey ≠ "" then getIdentifierField d identifierKey else ""
      if identifierKey ≠ "" ∧ identifier = "" then
        .error (identifierKey ++ " needs to be set when resourceType = " ++ resourceType)
      else
        .ok ⟨privilege, resourceType, grantee, keyspaceName, identifier⟩

/-! Statement templating

The source defines two Go html-template constants. Written with visible
spacing, the create template is

  GRANT (Privilege) ON (ResourceType) (if Keyspace)"(Keyspace)"(end)(if
  Keyspace and Identifier).(end)(if Identifier)"(Identifier)"(end) TO
  "(Grantee)"

and the delete template is identical except the verb is REVOKE and the
preposition before the grantee is FROM. An empty string is falsy for the
template conditionals, and every interpolated value passes through the
html-template escaper. -/

/-- Renders the create (GRANT) template for a Grant. -/
def renderGrant (g : Grant) : String :=
  "GRANT " ++ htmlEscape g.Privilege ++ " ON " ++ htmlEscape g.ResourceType ++ " "
    ++ (if g.Keyspace ≠ "" then "\"" ++ htmlEscape g.Keyspace ++ "\"" else "")
    ++ (if g.Keyspace ≠ "" ∧ g.Identifier ≠ "" then "." else "")
    ++ (if g.Identifier ≠ "" then "\"" ++ htmlEscape g.Identifier ++ "\"" else "")
    ++ " TO \"" ++ htmlEscape g.Grantee ++ "\""

/-- Renders the delete (REVOKE) template for a Grant. -/
def renderRevoke (g : Grant) : String :=
  "REVOKE " ++ htmlEscape g.Privilege ++ " ON " ++ htmlEscape g.ResourceType ++ " "
    ++ (if g.Keyspace ≠ "" then "\"" ++ htmlEscape g.Keyspace ++ "\"" else "")
    ++ (if g.Keyspace ≠ "" ∧ g.Identifier ≠ "" then "." else "")
    ++ (if g.Identifier ≠ "" then "\"" ++ htmlEscape g.Identifier ++ "\"" else "")
    ++ " FROM \"" ++ htmlEscape g.Grantee ++ "\""

/-- The segment both templates share between the verb and the preposition:
privilege, resource type and the optional quoted keyspace/identifier part. -/
def grantBody (g : Grant) : String :=
  htmlEscape g.Privilege ++ " ON " ++ htmlEscape g.ResourceType ++ " "
    ++ (if g.Keyspace ≠ "" then "\"" ++ htmlEscape g.Keyspace ++ "\"" else "")
    ++ (if g.Keyspace ≠ "" ∧ g.Identifier ≠ "" then "." else "")
    ++ (if g.Identifier ≠ "" then "\"" ++ htmlEscape g.Identifier ++ "\"" else "")

/-- The quoted grantee segment shared by both templates. -/
def quotedGrantee (g : Grant) : String :=
  "\"" ++ htmlEscape g.Grantee ++ "\""

/-! SHA-512

The role resource verifies credentials with the standard library SHA-512
digest (crypto sha512, Sum512) followed by lowercase hex encoding. We embed
the FIPS 180-4 algorithm executably: the round and initial constants are
derived, as the standard defines them, from the fractional parts of the cube
roots (respectively square roots) of the first 80 (respectively 8) primes,
and the whole pipeline is validated below against the published digest of
the empty message. -/

/-- Trial-division primality test, adequate for the small constants needed. -/
def isPrimeTD (n : Nat) : Bool :=
  decide (2 ≤ n) && ((List.range n).drop 2).all (fun d => n % d ≠ 0)

/-- The first 80 primes (2 through 409). -/
def sha512Primes : List Nat :=
  ((List.range 500).filter isPrimeTD).take 80

/-- Fuel-driven binary search maintaining lo^2 ≤ n < hi^2. -/
def sqrtSearch : Nat → Nat → Nat → Nat → Nat
  | 0, lo, _, _ => lo
  | fuel + 1, lo, hi, n =>
    if hi ≤ lo + 1 then lo
    else
      let mid := (lo + hi) / 2
      if mid * mid ≤ n then sqrtSearch fuel mid hi n else sqrtSearch fuel lo mid n

/-- Integer square root (floor). -/
def intSqrt (n : Nat) : Nat := sqrtSearch 400 0 (n + 1) n

/-- Fuel-driven binary search maintaining lo^3 ≤ n < hi^3. -/
def cbrtSearch : Nat → Nat → Nat → Nat → Nat
  | 0, lo, _, _ => lo
  | fuel + 1, lo, hi, n =>
    if hi ≤ lo + 1 then lo
    else
      let mid := (lo + hi) / 2
      if mid * mid * mid ≤ n then cbrtSearch fuel mid hi n else cbrtSearch fuel lo mid n

/-- Integer cube root (floor). -/
def intCbrt (n : Nat) : Nat := cbrtSearch 400 0 (n + 1) n

/-- First 64 bits of the fractional part of the square root of p. -/
def fracSqrtBits (p : Nat) : Nat := intSqrt (p * 2 ^ 128) % 2 ^ 64

/-- First 64 bits of the fractional part of the cube root of p. -/
def fracCbrtBits (p : Nat) : Nat := intCbrt (p * 2 ^ 192) % 2 ^ 64

/-- The eight initial hash words of SHA-512. -/
def sha512InitHs : List Nat := (sha512Primes.take 8).map fracSqrtBits

/-- The eighty round constants of SHA-512. -/
def sha512Ks : List Nat := sha512Primes.map fracCbrtBits

/-- Truncation to a 64-bit word. -/
def w64 (n : Nat) : Nat := n % 2 ^ 64

/-- Right rotation of a 64-bit word by n bits (0 < n < 64 at all call sites). -/
def rotr64 (n x : Nat) : Nat := ((x >>> n) ||| (x <<< (64 - n))) % 2 ^ 64

/-- Bitwise complement of a 64-bit word. -/
def not64 (x : Nat) : Nat := x ^^^ (2 ^ 64 - 1)

/-- Big Sigma-0 of SHA-512. -/
def bSigma0 (x : Nat) : Nat := rotr64 28 x ^^^ rotr64 34 x ^^^ rotr64 39 x

/-- Big Sigma-1 of SHA-512. -/
def bSigma1 (x : Nat) : Nat := rotr64 14 x ^^^ rotr64 18 x ^^^ rotr64 41 x

/-- Small sigma-0 of SHA-512. -/
def sSigma0 (x : Nat) : Nat := rotr64 1 x ^^^ rotr64 8 x ^^^ (x >>> 7)

/-- Small sigma-1 of SHA-512. -/
def sSigma1 (x : Nat) : Nat := rotr64 19 x ^^^ rotr64 61 x ^^^ (x >>> 6)

/-- The Ch function of SHA-512. -/
def ch64 (e f g : Nat) : Nat := (e &&& f) ^^^ (not64 e &&& g)

/-- The Maj function of SHA-512. -/
def maj64 (a b c : Nat) : Nat := (a &&& b) ^^^ (a &&& c) ^^^ (b &&& c)

/-- Big-endian byte decomposition of n into the given number of bytes. -/
def beBytes (width n : Nat) : List Nat :=
  (List.range width).map (fun i => (n >>> (8 * (width - 1 - i))) % 256)

/-- Big-endian word assembly from bytes. -/
def beWord (bytes : List Nat) : Nat :=
  bytes.foldl (fun acc b => acc * 256 + b) 0

/-- Splits a list into consecutive chunks of size k (fuel-driven). -/
def chunksAux (k : Nat) : Nat → List Nat → List (List Nat)
  | 0, _ => []
  | fuel + 1, l => if l = [] then [] else l.take k :: chunksAux k fuel (l.drop k)

/-- SHA-512 message padding: a 0x80 byte, zeros up to 112 mod 128, and the
message bit length as a 128-bit big-endian integer. -/
def sha512Pad (msg : List Nat) : List Nat :=
  let bitLen := 8 * msg.length
  let zeros := (239 - msg.length % 128) % 128
  msg ++ [128] ++ List.replicate zeros 0 ++ beBytes 16 bitLen

/-- Extends a 16-word message schedule by the given number of words. -/
def extendSchedule : Nat → List Nat → List Nat
  | 0, w => w
  | n + 1, w =>
    let t := w.length
    let next := w64 (sSigma1 (w.getD (t - 2) 0) + w.getD (t - 7) 0
      + sSigma0 (w.getD (t - 15) 0) + w.getD (t - 16) 0)
    extendSchedule n (w ++ [next])

/-- One SHA-512 round on the working state [a, b, c, d, e, f, g, h]. -/
def sha512Round (st : List Nat) (kw : Nat × Nat) : List Nat :=
  match st with
  | [a, b, c, d, e, f, g, h] =>
    let t1 := w64 (h + bSigma1 e + ch64 e f g + kw.1 + kw.2)
    let t2 := w64 (bSigma0 a + maj64 a b c)
    [w64 (t1 + t2), a, b, c, w64 (d + t1), e, f, g]
  | other => other

/-- Compression of one 128-byte block into the hash state. -/
def sha512Compress (hs : List Nat) (block : List Nat) : List Nat :=
  let ws := extendSchedule 64 ((chunksAux 8 block.length block).map beWord)
  let st := (sha512Ks.zip ws).foldl sha512Round hs
  (hs.zip st).map (fun p => w64 (p.1 + p.2))

/-- SHA-512 digest of a byte sequence, as 64 bytes. -/
def sha512Bytes (msg : List Nat) : List Nat :=
  let padded := sha512Pad msg
  let blocks := chunksAux 128 padded.length padded
  ((blocks.foldl sha512Compress sha512InitHs).map (beBytes 8)).flatten

/-- Lowercase hexadecimal digit. -/
def hexDigitChar (n : Nat) : Char :=
  if n < 10 then Char.ofNat (48 + n) else Char.ofNat (87 + n)

/-- Lowercase hex encoding of bytes (Go hex.EncodeToString). -/
def bytesToHex (bs : List Nat) : String :=
  String.mk (bs.map (fun b => [hexDigitChar (b / 16), hexDigitChar (b % 16)])).flatten

/-- UTF-8 encoding of one character, as Go produces when converting a string
to a byte slice. -/
def utf8BytesChar (c : Char) : List Nat :=
  let n := c.toNat
  if n < 128 then [n]
  else if n < 2048 then [192 ||| (n >>> 6), 128 ||| (n &&& 63)]
  else if n < 65536 then
    [224 ||| (n >>> 12), 128 ||| ((n >>> 6) &&& 63), 128 ||| (n &&& 63)]
  else
    [240 ||| (n >>> 18), 128 ||| ((n >>> 12) &&& 63),
     128 ||| ((n >>> 6) &&& 63), 128 ||| (n &&& 63)]

/-- The UTF-8 bytes of a string (Go byte-slice conversion). -/
def stringBytes (s : String) : List Nat :=
  (s.data.map utf8BytesChar).flatten

/-- The Go byte length of a string (len on a Go string counts UTF-8 bytes). -/
def utf8Len (s : String) : Nat := (stringBytes s).length

/-- Hex-encoded SHA-512 digest of a string, matching
hex.EncodeToString(sha512.Sum512([]byte(s))). -/
def sha512Hex (s : String) : String :=
  bytesToHex (sha512Bytes (stringBytes s))

/-- `checkPassword` from the source. The external bcrypt comparison
primitive (bcrypt.CompareHashAndPassword, from the x/crypto library, not
part of this repository) is passed as a parameter; the sha-512 branch is
embedded fully. Go nil/error results become Except. -/
def checkPassword (bcryptCompare : String → String → Except String Unit)
    (algorithm storedHash password : String) : Except String Unit :=
  if algorithm = "sha-512" then
    let computedHash := sha512Hex password
    if computedHash ≠ storedHash then .error "password hash mismatch"
    else .ok ()
  else bcryptCompare storedHash password

/-! Role read path

`readRole` issues a query on the system keyspace role table filtered by
role name and returns the first row; the catalog content of that table is
modelled as an explicit list of rows, and the filtered query as selecting
the first row whose role column equals the requested name. -/

/-- One row of the roles catalog table (columns role, can_login,
is_superuser, salted_hash as selected by `readRole`). -/
structure RoleRow where
  role        : String
  canLogin    : Bool
  isSuperUser : Bool
  saltedHash  : String
deriving DecidableEq, Repr

/-- `readRole` from the source: first row of the roles table with the given
role name, or the cannot-read error when the query yields no row. -/
def readRole (catalog : List RoleRow) (name : String) : Except String RoleRow :=
  match catalog.find? (fun r => r.role = name) with
  | some r => .ok r
  | none => .error ("cannot read role with name " ++ name)

/-- The observed role state that `resourceRoleRead` writes back into the
resource data (fields name, super_user, login, password). -/
structure ObservedRole where
  name      : String
  superUser : Bool
  login     : Bool
  password  : String
deriving DecidableEq, Repr

/-- `resourceRoleRead` from the source, restricted to its decision logic:
read the role row by name; on failure propagate the error; on success set
the observed password to the caller-supplied plaintext when `checkPassword`
accepts it against the stored salted hash under the configured algorithm,
and to the stored salted hash otherwise. -/
def resourceRoleRead (bcryptCompare : String → String → Except String Unit)
    (algorithm : String) (catalog : List RoleRow)
    (name password : String) : Except String ObservedRole :=
  match readRole catalog name with
  | .error e => .error e
  | .ok row =>
    let observedPassword :=
      match checkPassword bcryptCompare algorithm row.saltedHash password with
      | .ok _ => password
      | .error _ => row.saltedHash
    .ok { name := row.role, superUser := row.isSuperUser,
          login := row.canLogin, password := observedPassword }

/-! Schema-level validators -/

/-- The SDK helper validation.StringLenBetween(min, max): a string is
accepted when its Go length (UTF-8 byte count) is neither below min nor
above max. -/
def stringLenBetweenOk (mn mx : Nat) (s : String) : Bool :=
  if utf8Len s < mn ∨ utf8Len s > mx then false else true

/-- Acceptance of the role resource password attribute
(validation.StringLenBetween(40, 512) in the schema). -/
def passwordSchemaOk (s : String) : Bool := stringLenBetweenOk 40 512 s

/-- The SDK helper validation.StringInSlice(valid, ignoreCase) with
ignoreCase = false: accepted when the string is one of the listed values. -/
def stringInSliceOk (valid : List String) (s : String) : Bool :=
  valid.any (fun v => v = s)

/-- Acceptance of the provider pw_encryption_algorithm attribute
(validation.StringInSlice(["bcrypt", "sha-512"], false)). -/
def pwAlgorithmSchemaOk (s : String) : Bool :=
  stringInSliceOk ["bcrypt", "sha-512"] s

/-! Go-regexp identifier matchers

The grant schema checks identifiers with regexp.MatchString, which reports
whether the pattern matches anywhere in the string. Both patterns below are
anchored at the start with a caret; only the generic identifier pattern is
also anchored at the end with a dollar. -/

/-- Whether a character is in the class [a-zA-Z0-9]. -/
def isAlnumAscii (c : Char) : Bool :=
  (97 ≤ c.toNat && c.toNat ≤ 122) || (65 ≤ c.toNat && c.toNat ≤ 90)
    || (48 ≤ c.toNat && c.toNat ≤ 57)

/-- Whether a character is in the class [a-zA-Z0-9_]. -/
def isAlnumUnderscoreAscii (c : Char) : Bool :=
  isAlnumAscii c || c.toNat = 95

/-- MatchString of the generic identifier pattern (caret, the class of all
characters other than a double quote repeated 1 to 256 times, dollar):
anchored at both ends, so it holds of exactly the strings of 1 to 256
characters containing no double quote. -/
def validIdentifierMatch (s : String) : Bool :=
  decide (1 ≤ s.length) && decide (s.length ≤ 256)
    && s.data.all (fun c => c.toNat ≠ 34)

/-- MatchString of the table-name pattern (caret, one character of
[a-zA-Z0-9], then [a-zA-Z0-9_] repeated 0 to 255 times — and no end
anchor). A match must start at position 0 because of the caret, and the
repetition may match the empty string, so a match exists exactly when the
string has a first character and that character is in [a-zA-Z0-9]:
whatever follows, and however long the string is, is irrelevant. -/
def validTableNameMatch (s : String) : Bool :=
  match s.data with
  | [] => false
  | c :: _ => isAlnumAscii c

/-- `validIdentifier` from the source, specialised to its use for the
table_name attribute: the value is accepted (no diagnostics) exactly when
the table-name regex matches. -/
def tableNameSchemaOk (s : String) : Bool := validTableNameMatch s

/-- Modelled from the spec (for comparison with the source behaviour): the
stated table-name format rule — starts with a letter or digit, followed
only by letters, digits or underscores, 1 to 256 characters long. -/
def specTableNameOk (s : String) : Bool :=
  (match s.data with
   | [] => false
   | c :: rest => isAlnumAscii c && rest.all isAlnumUnderscoreAscii)
  && decide (s.length ≤ 256)

/-! Grant update -/

/-- `resourceGrantUpdate` from the source: it is a single unconditional
error return. To make the absence of effects expressible, the model takes
an arbitrary external state (standing for the cluster) and also returns the
list of statement texts executed; the source function touches neither. -/
def resourceGrantUpdate {σ : Type} (d : GrantResourceData) (state : σ) :
    Except String Unit × σ × List String :=
  (.error "Updating of grants is not supported", state, [])

/-! Shared proof helpers -/

instance exceptDecEq {ε α : Type} [DecidableEq ε] [DecidableEq α] :
    DecidableEq (Except ε α) := fun x y =>
  match x, y with
  | .ok a, .ok b =>
    if h : a = b then .isTrue (by rw [h])
    else .isFalse (by intro hc; cases hc; exact h rfl)
  | .error e, .error f =>
    if h : e = f then .isTrue (by rw [h])
    else .isFalse (by intro hc; cases hc; exact h rfl)
  | .ok _, .error _ => .isFalse (by intro hc; cases hc)
  | .error _, .ok _ => .isFalse (by intro hc; cases hc)

/-- A stand-in bcrypt comparison primitive used to instantiate witnesses:
accepts exactly when the stored hash is the plaintext prefixed with a
marker. (The real primitive is external to the repository; every theorem
below that involves the bcrypt branch holds for an arbitrary primitive.) -/
def bcStub (storedHash password : String) : Except String Unit :=
  if storedHash = "stub:" ++ password then .ok ()
  else .error "crypto bcrypt: hashedPassword is not the hash of the given password"

set_option maxRecDepth 10000

/-- Validation of the SHA-512 embedding against the published FIPS 180-4
test vector for the empty message. -/
theorem sha512Hex_empty_vector :
    sha512Hex "" =
      "cf83e1357eefb8bdf1542850d66d8007d620e4050b5715dc83f4a921d36ce9ce47d0d13c5d85f2b0ff8318d2877eec2f63b931bd47417a81a538327af927da3e" := by
  decide

/-! Claim theorems -/

/-- C6: validating the Grant (privilege select, resource type table,
grantee alice, keyspace qualifier ks1, identifier t1) succeeds, and
rendering the GRANT statement for it produces exactly
GRANT select ON table "ks1"."t1" TO "alice". -/
theorem claim6_select_table_scenario :
    parseData ⟨"select", "alice", "table", "ks1", "", "t1", "", "", ""⟩ =
        .ok ⟨"select", "table", "alice", "ks1", "t1"⟩ ∧
      renderGrant ⟨"select", "table", "alice", "ks1", "t1"⟩ =
        "GRANT select ON table \"ks1\".\"t1\" TO \"alice\"" := by
  constructor <;> rfl

/-- C7: rendering is deterministic (the same Grant renders to the same text
on repeated calls), and the GRANT and REVOKE renderings of one Grant differ
only in the leading verb and in the preposition before the grantee: both
factor through the same body and grantee segments. -/
theorem claim7_render_deterministic_verb_preposition (g : Grant) :
    renderGrant g = renderGrant g ∧
      renderGrant g = "GRANT " ++ grantBody g ++ " TO " ++ quotedGrantee g ∧
      renderRevoke g = "REVOKE " ++ grantBody g ++ " FROM " ++ quotedGrantee g := by
  have hTO : (" TO \"" : String) = " TO " ++ "\"" := rfl
  have hFROM : (" FROM \"" : String) = " FROM " ++ "\"" := rfl
  refine ⟨rfl, ?_, ?_⟩ <;>
    simp only [renderGrant, renderRevoke, grantBody, quotedGrantee, hTO, hFROM,
      String.append_assoc]

/-- C8: the grant update operation fails with the unsupported-operation
error for every input, leaves any external state unchanged, and executes no
statements. -/
theorem claim8_update_unsupported {σ : Type} (d : GrantResourceData) (st : σ) :
    resourceGrantUpdate d st =
      (.error "Updating of grants is not supported", st, []) := rfl

/-- C2: whenever the resource type is not in the compatibility table entry
for the privilege (also when the privilege is absent from the table, whose
entry is then empty), `parseData` returns the unknown-privilege error (for
an empty entry) or the incompatible-resource-type error whose message
enumerates the valid resource types for the privilege — never a Grant. -/
theorem claim2_incompatible_pair_rejected (d : GrantResourceData)
    (h : (privilegeToResourceTypesMap d.privilege).contains d.resource_type = false) :
    parseData d = .error (
      if (privilegeToResourceTypesMap d.privilege).length = 0 then
        d.resource_type ++ " resource not applicable for privilege " ++ d.privilege
      else
        d.resource_type ++ " resource not applicable for privilege " ++ d.privilege
          ++ " - valid resourceTypes are "
          ++ strJoin ", " (privilegeToResourceTypesMap d.privilege)) := by
  have hnmem : d.resource_type ∉ privilegeToResourceTypesMap d.privilege := by
    intro hm
    have hcontra : (privilegeToResourceTypesMap d.privilege).contains d.resource_type
        = true := List.elem_iff.mpr hm
    rw [h] at hcontra
    cases hcontra
  by_cases hlen : (privilegeToResourceTypesMap d.privilege).length = 0
  · simp [parseData, Nat.le_zero, hlen]
  · have hne : privilegeToResourceTypesMap d.privilege ≠ [] := by
      intro hnil
      rw [hnil] at hlen
      exact hlen rfl
    simp [parseData, Nat.le_zero, List.length_eq_zero, hlen, hne, hnmem]

/-- C2 witness: the spec scenario select over role is rejected with the
enumerating message, and an unknown privilege is rejected with the
unknown-privilege message. -/
theorem claim2_witness :
    parseData ⟨"select", "alice", "role", "", "", "", "bob", "", ""⟩ =
      .error "role resource not applicable for privilege select - valid resourceTypes are all keyspaces, keyspace, table, all mbeans, mbeans, mbean" ∧
    parseData ⟨"frobnicate", "alice", "keyspace", "ks", "", "", "", "", ""⟩ =
      .error "keyspace resource not applicable for privilege frobnicate" := by
  constructor
  · exact (claim2_incompatible_pair_rejected
      ⟨"select", "alice", "role", "", "", "", "bob", "", ""⟩ (by decide)).trans (by rfl)
  · exact (claim2_incompatible_pair_rejected
      ⟨"frobnicate", "alice", "keyspace", "ks", "", "", "", "", ""⟩ (by decide)).trans (by rfl)

/-- C5: for a privilege-compatible resource type, if the resource type is
keyspace-scoped then an empty keyspace qualifier makes `parseData` fail
with the missing-keyspace-qualifier error; if it is not keyspace-scoped,
any supplied keyspace qualifier leaves the validation outcome unchanged, a
validated Grant carries an empty qualifier, and its rendered statement
contains no keyspace qualifier segment. -/
theorem claim5_keyspace_qualifier (d : GrantResourceData)
    (hc : (privilegeToResourceTypesMap d.privilege).contains d.resource_type = true) :
    (resourcesThatRequireKeyspaceQualifier.contains d.resource_type = true →
      d.keyspace_name = "" →
      parseData d =
        .error ("keyspace name must be set for resourceType " ++ d.resource_type)) ∧
    (resourcesThatRequireKeyspaceQualifier.contains d.resource_type = false →
      (∀ q, parseData { d with keyspace_name := q } = parseData d) ∧
      (∀ g, parseData d = .ok g → g.Keyspace = "" ∧
        renderGrant g =
          "GRANT " ++ htmlEscape g.Privilege ++ " ON " ++ htmlEscape g.ResourceType
            ++ " "
            ++ (if g.Identifier ≠ "" then "\"" ++ htmlEscape g.Identifier ++ "\"" else "")
            ++ " TO \"" ++ htmlEscape g.Grantee ++ "\"")) := by
  have hmem : d.resource_type ∈ privilegeToResourceTypesMap d.privilege :=
    List.elem_iff.mp hc
  have hne : privilegeToResourceTypesMap d.privilege ≠ [] :=
    List.ne_nil_of_mem hmem
  have hlen0 : ¬ ((privilegeToResourceTypesMap d.privilege).length ≤ 0) := by
    simp [Nat.le_zero, List.length_eq_zero, hne]
  constructor
  · intro hreq hks
    simp only [parseData]
    rw [if_neg hlen0]
    rw [if_neg (not_not_intro hc)]
    rw [if_pos ⟨hreq, hks⟩]
  · intro hreq
    constructor
    · intro q
      have hreqnMem : d.resource_type ∉ resourcesThatRequireKeyspaceQualifier := by
        intro hm
        have hcontra : resourcesThatRequireKeyspaceQualifier.contains d.resource_type
            = true := List.elem_iff.mpr hm
        rw [hreq] at hcontra
        cases hcontra
      have hgf : ∀ k, getIdentifierField { d with keyspace_name := q } k
          = getIdentifierField d k := by
        intro k
        simp [getIdentifierField]
      by_cases hik : resourceTypeToIdentifier d.resource_type = ""
      · simp [parseData, hreqnMem, hne, hgf, hik]
      · by_cases hid : getIdentifierField d (resourceTypeToIdentifier d.resource_type) = ""
        · simp [parseData, hreqnMem, hne, hgf, hik, hid]
        · simp [parseData, hreqnMem, hne, hgf, hik, hid]
    · intro g hg
      simp only [parseData] at hg
      rw [if_neg hlen0] at hg
      rw [if_neg (not_not_intro hc)] at hg
      rw [if_neg (fun hand => by rw [hreq] at hand; cases hand.1)] at hg
      rw [hreq] at hg
      simp only [Bool.false_eq_true, if_false] at hg
      by_cases hcond : resourceTypeToIdentifier d.resource_type ≠ "" ∧
          (if resourceTypeToIdentifier d.resource_type ≠ "" then
            getIdentifierField d (resourceTypeToIdentifier d.resource_type)
          else "") = ""
      · rw [if_pos hcond] at hg
        cases hg
      · rw [if_neg hcond] at hg
        cases hg
        refine ⟨rfl, ?_⟩
        simp [renderGrant]

/-- C5 witness: the spec scenario drop over keyspace with an empty
qualifier fails with the missing-keyspace message; describe over all roles
validates identically whatever qualifier is supplied, and its rendered
statement carries no qualifier segment. -/
theorem claim5_witness :
    parseData ⟨"drop", "alice", "keyspace", "", "", "", "", "", ""⟩ =
      .error "keyspace name must be set for resourceType keyspace" ∧
    parseData ⟨"describe", "alice", "all roles", "whatever", "", "", "", "", ""⟩ =
      parseData ⟨"describe", "alice", "all roles", "", "", "", "", "", ""⟩ ∧
    renderGrant ⟨"describe", "all roles", "alice", "", ""⟩ =
      "GRANT describe ON all roles  TO \"alice\"" := by
  refine ⟨?_, ?_, ?_⟩
  · exact (claim5_keyspace_qualifier
      ⟨"drop", "alice", "keyspace", "", "", "", "", "", ""⟩ (by rfl)).1 (by rfl) rfl
  · exact ((claim5_keyspace_qualifier
      ⟨"describe", "alice", "all roles", "", "", "", "", "", ""⟩ (by rfl)).2
        (by rfl)).1 "whatever"
  · have h := ((claim5_keyspace_qualifier
      ⟨"describe", "alice", "all roles", "", "", "", "", "", ""⟩ (by rfl)).2
        (by rfl)).2 ⟨"describe", "all roles", "alice", "", ""⟩ (by rfl)
    exact h.2.trans (by rfl)

/-- C1: on a role read, when the catalog holds a row for the requested name
the observed password is the caller-supplied plaintext exactly when
`checkPassword` accepts it against the stored salted hash under the
configured algorithm, and the stored salted hash when verification fails;
when the catalog holds no row for the name, the read fails with the
role-not-found error. -/
theorem claim1_role_read_credentials
    (bc : String → String → Except String Unit) (alg : String)
    (catalog : List RoleRow) (name p : String) :
    (∀ row, catalog.find? (fun r => r.role = name) = some row →
      (checkPassword bc alg row.saltedHash p = .ok () →
        resourceRoleRead bc alg catalog name p =
          .ok ⟨row.role, row.isSuperUser, row.canLogin, p⟩) ∧
      (checkPassword bc alg row.saltedHash p ≠ .ok () →
        resourceRoleRead bc alg catalog name p =
          .ok ⟨row.role, row.isSuperUser, row.canLogin, row.saltedHash⟩)) ∧
    (catalog.find? (fun r => r.role = name) = none →
      resourceRoleRead bc alg catalog name p =
        .error ("cannot read role with name " ++ name)) := by
  constructor
  · intro row hrow
    constructor
    · intro hok
      simp [resourceRoleRead, readRole, hrow, hok]
    · intro hne
      cases hcp : checkPassword bc alg row.saltedHash p with
      | ok u => cases u; exact absurd hcp hne
      | error e => simp [resourceRoleRead, readRole, hrow, hcp]
  · intro hnone
    simp [resourceRoleRead, readRole, hnone]

/-- C1 witness: with a one-row catalog, supplying the matching plaintext
reports the plaintext back, supplying a different string reports the stored
hash back, and an empty catalog yields the role-not-found error. -/
theorem claim1_witness :
    resourceRoleRead bcStub "bcrypt" [⟨"bob", true, false, "stub:pw"⟩] "bob" "pw" =
      .ok ⟨"bob", false, true, "pw"⟩ ∧
    resourceRoleRead bcStub "bcrypt" [⟨"bob", true, false, "stub:pw"⟩] "bob" "other" =
      .ok ⟨"bob", false, true, "stub:pw"⟩ ∧
    resourceRoleRead bcStub "bcrypt" [] "bob" "pw" =
      .error "cannot read role with name bob" := by
  refine ⟨?_, ?_, ?_⟩
  · exact ((claim1_role_read_credentials bcStub "bcrypt"
      [⟨"bob", true, false, "stub:pw"⟩] "bob" "pw").1
        ⟨"bob", true, false, "stub:pw"⟩ (by rfl)).1 (by rfl)
  · exact ((claim1_role_read_credentials bcStub "bcrypt"
      [⟨"bob", true, false, "stub:pw"⟩] "bob" "other").1
        ⟨"bob", true, false, "stub:pw"⟩ (by rfl)).2 (by decide)
  · exact (claim1_role_read_credentials bcStub "bcrypt" [] "bob" "pw").2 rfl

/-- C3: with algorithm tag sha-512, `checkPassword` accepts exactly when
the lowercase hex encoding of the unsalted SHA-512 digest of the plaintext
equals the stored hash; every plaintext whose digest differs is rejected. -/
theorem claim3_sha512_verify (bc : String → String → Except String Unit)
    (h p : String) :
    checkPassword bc "sha-512" h p = .ok () ↔ sha512Hex p = h := by
  by_cases hd : sha512Hex p = h
  · simp [checkPassword, hd]
  · simp [checkPassword, hd]

/-- C3 witness: the stored hex digest of the empty string verifies against
the empty plaintext and fails against a different plaintext. -/
theorem claim3_witness :
    checkPassword bcStub "sha-512"
      "cf83e1357eefb8bdf1542850d66d8007d620e4050b5715dc83f4a921d36ce9ce47d0d13c5d85f2b0ff8318d2877eec2f63b931bd47417a81a538327af927da3e"
      "" = .ok () ∧
    checkPassword bcStub "sha-512"
      "cf83e1357eefb8bdf1542850d66d8007d620e4050b5715dc83f4a921d36ce9ce47d0d13c5d85f2b0ff8318d2877eec2f63b931bd47417a81a538327af927da3e"
      "a" ≠ .ok () := by
  constructor
  · exact (claim3_sha512_verify bcStub _ "").mpr sha512Hex_empty_vector
  · intro hok
    have heq := (claim3_sha512_verify bcStub _ "a").mp hok
    have hne : sha512Hex "a" ≠
        "cf83e1357eefb8bdf1542850d66d8007d620e4050b5715dc83f4a921d36ce9ce47d0d13c5d85f2b0ff8318d2877eec2f63b931bd47417a81a538327af927da3e" := by
      decide
    exact hne heq

/-- C9: for every algorithm tag other than the exact string sha-512 —
bcrypt, but also any unrecognized or empty tag — `checkPassword` delegates
to the bcrypt comparison primitive and never rejects the tag itself; the
configuration schema independently restricts the tag to exactly bcrypt and
sha-512. -/
theorem claim9_verifier_dispatch :
    (∀ (bc : String → String → Except String Unit) (alg h p : String),
      alg ≠ "sha-512" → checkPassword bc alg h p = bc h p) ∧
    (∀ s, pwAlgorithmSchemaOk s = true ↔ (s = "bcrypt" ∨ s = "sha-512")) := by
  constructor
  · intro bc alg h p halg
    simp [checkPassword, halg]
  · intro s
    constructor
    · intro hs
      simp [pwAlgorithmSchemaOk, stringInSliceOk] at hs
      rcases hs with h | h
      · exact Or.inl h.symm
      · exact Or.inr h.symm
    · rintro (rfl | rfl) <;> rfl

/-- C9 witness: the bcrypt tag, and even an empty tag, delegate to the
bcrypt primitive, and the schema accepts the tag bcrypt. -/
theorem claim9_witness :
    checkPassword bcStub "bcrypt" "stub:pw" "pw" = bcStub "stub:pw" "pw" ∧
    checkPassword bcStub "" "x" "y" = bcStub "x" "y" ∧
    pwAlgorithmSchemaOk "bcrypt" = true := by
  refine ⟨claim9_verifier_dispatch.1 bcStub "bcrypt" "stub:pw" "pw" (by decide),
    claim9_verifier_dispatch.1 bcStub "" "x" "y" (by decide),
    (claim9_verifier_dispatch.2 "bcrypt").mpr (Or.inl rfl)⟩

/-- C10 counterexample: a password of twenty two-byte characters is
accepted by the schema validator although it is only 20 characters long,
because the SDK length check counts UTF-8 bytes, not characters. -/
theorem claim10_counterexample :
    passwordSchemaOk (String.mk (List.replicate 20 'é')) = true ∧
    (String.mk (List.replicate 20 'é')).length = 20 := by
  constructor <;> decide

/-- C10 (amended): the role password is accepted by schema validation
exactly when its UTF-8 byte length is between 40 and 512 inclusive. -/
theorem claim10_password_schema_bounds (s : String) :
    passwordSchemaOk s = true ↔ (40 ≤ utf8Len s ∧ utf8Len s ≤ 512) := by
  by_cases hcond : utf8Len s < 40 ∨ utf8Len s > 512
  · simp only [passwordSchemaOk, stringLenBetweenOk, if_pos hcond]
    constructor
    · intro hfalse
      cases hfalse
    · intro hb
      omega
  · simp only [passwordSchemaOk, stringLenBetweenOk, if_neg hcond]
    constructor
    · intro _
      omega
    · intro _
      trivial

/-- C10 witness: a 40-character ASCII password is accepted. -/
theorem claim10_witness :
    passwordSchemaOk "0123456789012345678901234567890123456789" = true :=
  (claim10_password_schema_bounds "0123456789012345678901234567890123456789").mpr
    (by decide)

/-- C4: evaluation of the table-name schema check at inputs that violate
the specified format. The source regex has no end anchor, so MatchString
accepts any string whose first character is a letter or digit: a name with
a disallowed character after a valid prefix and a 300-character name are
both accepted, though the specified format (modelled by `specTableNameOk`)
rejects them. -/
theorem claim4_table_regex_unanchored :
    tableNameSchemaOk "a!" = true ∧ specTableNameOk "a!" = false ∧
    tableNameSchemaOk (String.mk (List.replicate 300 'a')) = true ∧
    (String.mk (List.replicate 300 'a')).length = 300 ∧
    specTableNameOk (String.mk (List.replicate 300 'a')) = false := by
  refine ⟨?_, ?_, ?_, ?_, ?_⟩ <;> decide

end CassandraProvider

